import Mathlib

/-!
Verification development for the Crawl OpenSearch management tool
(`opensearch.py`): a shallow embedding in Lean 4 of the CSV ingestion
pipeline (`import_csv`), the deletion pipeline (`delete_csv`), the query
builder and result renderer (`search`), together with theorems about the
claims of the specification.

Python strings are modelled as lists of Unicode code points (`PyStr`),
which lets us represent the lone surrogate code points that
`errors='surrogateescape'` decoding produces for non-text bytes.
The OpenSearch client is modelled as a function from the bulk-call index
to a transport outcome, so both accepted responses (with per-item error
reports) and request-level transport failures can be expressed.
-/

namespace Crawl

/-- A Python `str`: a sequence of Unicode code points. Code points in the
surrogate range can occur (produced by `surrogateescape` decoding). -/
abbrev PyStr := List Nat

/-- Embed a Lean string literal as a `PyStr`. -/
def pstr (s : String) : PyStr := s.data.map Char.toNat

/-- ASCII whitespace test used by the `int()` model. -/
def isSpaceCp (c : Nat) : Bool := c = 32 || c = 9 || c = 10 || c = 13 || c = 11 || c = 12

/-- Parse a nonempty run of ASCII digits as a natural number. -/
def parseDigits : List Nat → Option Nat
  | [] => none
  | l => go l 0
where
  go : List Nat → Nat → Option Nat
    | [], acc => some acc
    | c :: t, acc => if 48 ≤ c ∧ c ≤ 57 then go t (acc * 10 + (c - 48)) else none

/-- Model of Python `int(s)` on strings: optional surrounding whitespace,
optional sign, then decimal digits; `none` models a raised `ValueError`. -/
def pyInt (s : PyStr) : Option Int :=
  let t := ((s.dropWhile isSpaceCp).reverse.dropWhile isSpaceCp).reverse
  match t with
  | 43 :: rest => (parseDigits rest).map Int.ofNat
  | 45 :: rest => (parseDigits rest).map (fun n => -(n : Int))
  | rest => (parseDigits rest).map Int.ofNat

/-- Strict UTF-8 encoding of one code point, as Python `str.encode()` does:
surrogate code points (U+D800..U+DFFF) and values above U+10FFFF raise
`UnicodeEncodeError`, modelled as `Except.error ()`. -/
def encodeCp (c : Nat) : Except Unit (List Nat) :=
  if c < 0x80 then .ok [c]
  else if c < 0x800 then .ok [0xC0 + c / 64, 0x80 + c % 64]
  else if 0xD800 ≤ c ∧ c ≤ 0xDFFF then .error ()
  else if c < 0x10000 then .ok [0xE0 + c / 4096, 0x80 + c / 64 % 64, 0x80 + c % 64]
  else if c < 0x110000 then
    .ok [0xF0 + c / 262144, 0x80 + c / 4096 % 64, 0x80 + c / 64 % 64, 0x80 + c % 64]
  else .error ()

/-- Model of Python `s.encode()` (strict UTF-8): the byte sequence, or a
raised `UnicodeEncodeError` when any code point is unencodable. -/
def pyEncode : PyStr → Except Unit (List Nat)
  | [] => .ok []
  | c :: t => do
    let b ← encodeCp c
    let r ← pyEncode t
    .ok (b ++ r)

/-! ### MD5 (RFC 1321), used by `hashlib.md5(...).hexdigest()` -/

/-- Truncate to 32 bits. -/
def m32 (x : Nat) : Nat := x % 4294967296

/-- 32-bit left rotation. -/
def rotl32 (x n : Nat) : Nat := m32 (x <<< n) ||| (m32 x >>> (32 - n))

/-- 32-bit bitwise complement. -/
def not32 (x : Nat) : Nat := 4294967295 ^^^ m32 x

/-- The 64 MD5 round constants, `floor(2^32 * abs(sin(i+1)))`. -/
def md5K : List Nat :=
  [3614090360, 3905402710, 606105819, 3250441966, 4118548399, 1200080426,
   2821735955, 4249261313, 1770035416, 2336552879, 4294925233, 2304563134,
   1804603682, 4254626195, 2792965006, 1236535329, 4129170786, 3225465664,
   643717713, 3921069994, 3593408605, 38016083, 3634488961, 3889429448,
   568446438, 3275163606, 4107603335, 1163531501, 2850285829, 4243563512,
   1735328473, 2368359562, 4294588738, 2272392833, 1839030562, 4259657740,
   2763975236, 1272893353, 4139469664, 3200236656, 681279174, 3936430074,
   3572445317, 76029189, 3654602809, 3873151461, 530742520, 3299628645,
   4096336452, 1126891415, 2878612391, 4237533241, 1700485571, 2399980690,
   4293915773, 2240044497, 1873313359, 4264355552, 2734768916, 1309151649,
   4149444226, 3174756917, 718787259, 3951481745]

/-- The MD5 per-round left-rotation amounts. -/
def md5S : List Nat :=
  [7, 12, 17, 22, 7, 12, 17, 22, 7, 12, 17, 22, 7, 12, 17, 22,
   5, 9, 14, 20, 5, 9, 14, 20, 5, 9, 14, 20, 5, 9, 14, 20,
   4, 11, 16, 23, 4, 11, 16, 23, 4, 11, 16, 23, 4, 11, 16, 23,
   6, 10, 15, 21, 6, 10, 15, 21, 6, 10, 15, 21, 6, 10, 15, 21]

/-- MD5 padding: append 0x80, zero-pad so the length is 56 mod 64, then the
original bit length as 8 little-endian bytes. -/
def md5Pad (msg : List Nat) : List Nat :=
  let bitLen := msg.length * 8
  let padLen := (55 + 64 - msg.length % 64) % 64 + 1
  msg ++ (0x80 :: List.replicate (padLen - 1) 0) ++
    (List.range 8).map (fun i => bitLen / 256 ^ i % 256)

/-- Read 16 little-endian 32-bit words from a 64-byte chunk. -/
def md5Words (chunk : List Nat) : List Nat :=
  (List.range 16).map (fun i =>
    chunk.getD (4 * i) 0 + chunk.getD (4 * i + 1) 0 * 256 +
    chunk.getD (4 * i + 2) 0 * 65536 + chunk.getD (4 * i + 3) 0 * 16777216)

/-- One of the 64 MD5 rounds on state `(a, b, c, d)`. -/
def md5Round (w : List Nat) (st : Nat × Nat × Nat × Nat) (i : Nat) :
    Nat × Nat × Nat × Nat :=
  let a := st.1
  let b := st.2.1
  let c := st.2.2.1
  let d := st.2.2.2
  let f :=
    if i < 16 then (b &&& c) ||| (not32 b &&& d)
    else if i < 32 then (d &&& b) ||| (not32 d &&& c)
    else if i < 48 then b ^^^ c ^^^ d
    else c ^^^ (b ||| not32 d)
  let g :=
    if i < 16 then i
    else if i < 32 then (5 * i + 1) % 16
    else if i < 48 then (3 * i + 5) % 16
    else 7 * i % 16
  let tmp := m32 (a + f + md5K.getD i 0 + w.getD g 0)
  (d, m32 (b + rotl32 tmp (md5S.getD i 0)), b, c)

/-- Process one 64-byte chunk, updating the running MD5 state. -/
def md5Chunk (st : Nat × Nat × Nat × Nat) (chunk : List Nat) :
    Nat × Nat × Nat × Nat :=
  let w := md5Words chunk
  let r := (List.range 64).foldl (md5Round w) st
  (m32 (st.1 + r.1), m32 (st.2.1 + r.2.1), m32 (st.2.2.1 + r.2.2.1),
   m32 (st.2.2.2 + r.2.2.2))

/-- Split a list into 64-byte chunks; the fuel argument (an upper bound on
the number of chunks) makes the recursion structural. -/
def chunksGo : Nat → List Nat → List (List Nat)
  | _, [] => []
  | 0, _ => []
  | fuel + 1, c :: t => ((c :: t).take 64) :: chunksGo fuel ((c :: t).drop 64)

/-- Split a padded message into 64-byte chunks. -/
def md5Chunks (l : List Nat) : List (List Nat) := chunksGo l.length l

/-- Lowercase hex digit for a value below 16. -/
def hexDigit (n : Nat) : Nat := if n < 10 then 48 + n else 87 + n

/-- A 32-bit word as 8 lowercase hex characters of its little-endian bytes. -/
def hexWordLE (x : Nat) : PyStr :=
  (List.range 4).foldr (fun i acc =>
    hexDigit (x / 256 ^ i % 256 / 16) :: hexDigit (x / 256 ^ i % 256 % 16) :: acc) []

/-- `hashlib.md5(bytes).hexdigest()`: the MD5 digest of a byte sequence as a
32-character lowercase hex string. -/
def md5Hex (msg : List Nat) : PyStr :=
  let st := (md5Chunks (md5Pad msg)).foldl md5Chunk
    (0x67452301, 0xefcdab89, 0x98badcfe, 0x10325476)
  hexWordLE st.1 ++ hexWordLE st.2.1 ++ hexWordLE st.2.2.1 ++ hexWordLE st.2.2.2

/-! ### Timestamp formatting:
`datetime.fromtimestamp(int(ts)).strftime('%Y-%m-%d %H:%M:%S')` -/

/-- Civil date (year, month, day) of a day count relative to 1970-01-01
(Howard Hinnant's `civil_from_days`, with truncating integer division). -/
def civilFromDays (z : Int) : Int × Int × Int :=
  let z' := z + 719468
  let era := (if 0 ≤ z' then z' else z' - 146096) / 146097
  let doe := z' - era * 146097
  let yoe := (doe - doe / 1460 + doe / 36524 - doe / 146096) / 365
  let y := yoe + era * 400
  let doy := doe - (365 * yoe + yoe / 4 - yoe / 100)
  let mp := (5 * doy + 2) / 153
  let d := doy - (153 * mp + 2) / 5 + 1
  let m := mp + (if mp < 10 then 3 else -9)
  (y + (if m ≤ 2 then 1 else 0), m, d)

/-- Zero-pad the decimal form of a nonnegative integer to at least `k`
digits. -/
def padNum (k : Nat) (n : Int) : PyStr :=
  let s := pstr (toString n.toNat)
  List.replicate (k - s.length) 48 ++ s

/-- Model of `datetime.fromtimestamp(ts).strftime('%Y-%m-%d %H:%M:%S')`.
`fromtimestamp` converts to local time; the platform's UTC offset in
seconds is the explicit parameter `tz` (0 for the UTC reference). -/
def formatTimestamp (tz : Int) (ts : Int) : PyStr :=
  let t := ts + tz
  let days := t.fdiv 86400
  let sod := t.fmod 86400
  let ymd := civilFromDays days
  padNum 4 ymd.1 ++ pstr "-" ++ padNum 2 ymd.2.1 ++ pstr "-" ++ padNum 2 ymd.2.2 ++
    pstr " " ++ padNum 2 (sod / 3600) ++ pstr ":" ++ padNum 2 (sod / 60 % 60) ++
    pstr ":" ++ padNum 2 (sod % 60)

/-! ### Record normalization (`import_csv`, lines 249-259) -/

/-- The fields extracted from one CSV row before document construction. -/
structure NormRecord where
  timestamp : PyStr
  fullpath : PyStr
  relpath : PyStr
  server : PyStr
  share : PyStr
  ext : PyStr
  filetype : PyStr
  content : PyStr
deriving DecidableEq, Repr

/-- The row-shape dispatch of `import_csv`: rows with at least 8 fields use
the new schema (extra fields ignored); rows with 5 to 7 fields use the old
schema with `relpath = fullpath`, `server = ""`, `share = ""`; shorter rows
are malformed (`none`). -/
def normalizeRow (row : List PyStr) : Option NormRecord :=
  if 8 ≤ row.length then
    some { timestamp := row.getD 0 [], fullpath := row.getD 1 [],
           relpath := row.getD 2 [], server := row.getD 3 [],
           share := row.getD 4 [], ext := row.getD 5 [],
           filetype := row.getD 6 [], content := row.getD 7 [] }
  else if 5 ≤ row.length then
    some { timestamp := row.getD 0 [], fullpath := row.getD 1 [],
           relpath := row.getD 1 [], server := [], share := [],
           ext := row.getD 2 [], filetype := row.getD 3 [],
           content := row.getD 4 [] }
  else none

/-- Document identifier computed by `import_csv` (line 262):
`md5(fullpath.encode()).hexdigest()`. The strict `encode()` raises on
surrogate code points, modelled by `Except.error`. -/
def importDocId (fullpath : PyStr) : Except Unit PyStr :=
  match pyEncode fullpath with
  | .ok b => .ok (md5Hex b)
  | .error e => .error e

/-- Document identifier computed by `delete_csv` (line 337):
`md5(fullpath.encode()).hexdigest()`. -/
def deleteDocId (fullpath : PyStr) : Except Unit PyStr :=
  match pyEncode fullpath with
  | .ok b => .ok (md5Hex b)
  | .error e => .error e

/-! ### Bulk operations and the store boundary -/

/-- The document body built by `import_csv` (lines 266-277). -/
structure ImportDoc where
  timestamp : PyStr
  inurl : PyStr
  relpath : PyStr
  server : PyStr
  share : PyStr
  site : PyStr
  ext : PyStr
  intitle : PyStr
  intext : PyStr
  filetype : PyStr
deriving DecidableEq, Repr

/-- One line of a bulk request body: an index action header, a document
body, or a delete action. -/
inductive BulkItem where
  | indexAction (indexName docId : PyStr)
  | doc (d : ImportDoc)
  | deleteAction (indexName docId : PyStr)
deriving DecidableEq, Repr

/-- The store's reply to one accepted bulk request: the top-level `errors`
flag and, per item, whether that item carries an `error` entry. -/
structure BulkResponse where
  errors : Bool
  items : List Bool
deriving DecidableEq, Repr

/-- The OpenSearch client's `bulk` endpoint, as a function of the number of
bulk calls made so far in the run: `Except.error` models a request-level
transport failure (a raised exception), `Except.ok` an accepted request
with its per-item outcome report. -/
def Store := Nat → Except Unit BulkResponse

/-! ### Import pipeline (`import_csv`, lines 233-313) -/

/-- Loop state of `import_csv`: the pending batch, the `total` and `errors`
counters, the number of bulk calls made, and the trace of bulk request
bodies attempted so far. -/
structure ImportState where
  batch : List BulkItem
  total : Nat
  errors : Nat
  calls : Nat
  bulkCalls : List (List BulkItem)
deriving DecidableEq, Repr

/-- The empty initial loop state. -/
def initImportState : ImportState := ⟨[], 0, 0, 0, []⟩

/-- Number of per-item errors the code counts from an accepted response:
`sum(1 for item in response['items'] if item[...].get('error'))`, guarded
by the top-level `errors` flag. -/
def countItemErrors (resp : BulkResponse) : Nat :=
  if resp.errors then resp.items.countP (fun b => b) else 0

/-- One iteration of the `import_csv` row loop (lines 247-294), mirroring
the order of effects in the Python `try` block: the action header is
appended before `int(timestamp)` is evaluated, so a timestamp `ValueError`
leaves the header in the batch; a transport failure during a mid-run flush
is caught by the generic per-row handler (one error counted, batch kept). -/
def importStep (bs : Nat) (tz : Int) (indexName site : PyStr) (store : Store)
    (st : ImportState) (row : List PyStr) : ImportState :=
  match normalizeRow row with
  | none => { st with errors := st.errors + 1 }
  | some r =>
    match pyEncode r.fullpath with
    | .error _ => { st with errors := st.errors + 1 }
    | .ok pathBytes =>
      let docId := md5Hex pathBytes
      let batch1 := st.batch ++ [BulkItem.indexAction indexName docId]
      match pyInt r.timestamp with
      | none => { st with batch := batch1, errors := st.errors + 1 }
      | some ts =>
        let batch2 := batch1 ++ [BulkItem.doc
          { timestamp := formatTimestamp tz ts, inurl := r.fullpath,
            relpath := r.relpath, server := r.server, share := r.share,
            site := site, ext := r.ext, intitle := [], intext := r.content,
            filetype := r.filetype }]
        if bs * 2 ≤ batch2.length then
          match store st.calls with
          | .error _ =>
            { st with batch := batch2, calls := st.calls + 1,
                      errors := st.errors + 1,
                      bulkCalls := st.bulkCalls ++ [batch2] }
          | .ok resp =>
            { batch := [], total := st.total + batch2.length / 2,
              errors := st.errors + countItemErrors resp,
              calls := st.calls + 1,
              bulkCalls := st.bulkCalls ++ [batch2] }
        else { st with batch := batch2 }

/-- Final tally of a run: the `total` and `errors` counters and the trace
of bulk request bodies. -/
structure RunResult where
  total : Nat
  errors : Nat
  bulkCalls : List (List BulkItem)
deriving DecidableEq, Repr

/-- The default `batch_size` of `import_csv` and `delete_csv`. -/
def defaultBatchSize : Nat := 500

/-- The final flush of `import_csv` (lines 296-302): a remaining non-empty
batch is submitted once more; a transport failure here propagates through
the outer handler (line 313). -/
def importFinal (store : Store) (st : ImportState) : Except Unit RunResult :=
  if st.batch.isEmpty then .ok ⟨st.total, st.errors, st.bulkCalls⟩
  else
    match store st.calls with
    | .error e => .error e
    | .ok resp =>
      .ok ⟨st.total + st.batch.length / 2, st.errors + countItemErrors resp,
           st.bulkCalls ++ [st.batch]⟩

/-- Whole `import_csv` run over the parsed rows of the source file: the row
loop, then the final flush. -/
def runImport (bs : Nat) (tz : Int) (indexName site : PyStr) (store : Store)
    (rows : List (List PyStr)) : Except Unit RunResult :=
  importFinal store
    (rows.foldl (importStep bs tz indexName site store) initImportState)

/-! ### Delete pipeline (`delete_csv`, lines 316-360) -/

/-- One iteration of the `delete_csv` row loop (lines 328-350): rows with
fewer than 5 fields are skipped with a bare `continue` (no error counted);
otherwise `row[1]` is hashed into a delete action; the flush bound is
`batch_size` actions; a mid-run transport failure is caught by the generic
handler (one error counted, batch kept). -/
def deleteStep (bs : Nat) (indexName : PyStr) (store : Store)
    (st : ImportState) (row : List PyStr) : ImportState :=
  if row.length < 5 then st
  else
    match pyEncode (row.getD 1 []) with
    | .error _ => { st with errors := st.errors + 1 }
    | .ok pathBytes =>
      let batch1 := st.batch ++ [BulkItem.deleteAction indexName (md5Hex pathBytes)]
      if bs ≤ batch1.length then
        match store st.calls with
        | .error _ =>
          { st with batch := batch1, calls := st.calls + 1,
                    errors := st.errors + 1,
                    bulkCalls := st.bulkCalls ++ [batch1] }
        | .ok resp =>
          { batch := [], total := st.total + batch1.length,
            errors := st.errors + countItemErrors resp,
            calls := st.calls + 1,
            bulkCalls := st.bulkCalls ++ [batch1] }
      else { st with batch := batch1 }

/-- The final flush of `delete_csv` (lines 352-357), whose transport
failure propagates (the outer `try` catches only `FileNotFoundError`). -/
def deleteFinal (store : Store) (st : ImportState) : Except Unit RunResult :=
  if st.batch.isEmpty then .ok ⟨st.total, st.errors, st.bulkCalls⟩
  else
    match store st.calls with
    | .error e => .error e
    | .ok resp =>
      .ok ⟨st.total + st.batch.length, st.errors + countItemErrors resp,
           st.bulkCalls ++ [st.batch]⟩

/-- Whole `delete_csv` run: the row loop, then the final flush. -/
def runDelete (bs : Nat) (indexName : PyStr) (store : Store)
    (rows : List (List PyStr)) : Except Unit RunResult :=
  deleteFinal store (rows.foldl (deleteStep bs indexName store) initImportState)

/-! ### Query builder (`search`, lines 366-394) -/

/-- Colorama `Fore.RED`. -/
def foreRED : PyStr := pstr "\x1b[31m"

/-- Colorama `Fore.RESET`. -/
def foreRESET : PyStr := pstr "\x1b[39m"

/-- The sanitization of `search` (line 369):
`query.replace('<', '').replace('>', '').replace(';', '')`. -/
def sanitizeQuery (q : PyStr) : PyStr :=
  ((q.filter (fun c => c != 60)).filter (fun c => c != 62)).filter (fun c => c != 59)

/-- The `query_string` clause of the search request. -/
structure QueryStringClause where
  query : PyStr
  fields : List PyStr
  defaultOperator : PyStr
  fuzziness : PyStr
  analyzer : PyStr
deriving DecidableEq, Repr

/-- The `highlight` clause of the search request. -/
structure HighlightClause where
  order : PyStr
  preTags : List PyStr
  postTags : List PyStr
  fragmentSize : Nat
  numberOfFragments : Nat
deriving DecidableEq, Repr

/-- The structured search request body. -/
structure SearchBody where
  size : Int
  offset : Int
  queryString : QueryStringClause
  highlight : HighlightClause
deriving DecidableEq, Repr

/-- The request built by `search` (lines 369-394). -/
def searchBody (query : PyStr) (count offset : Int) : SearchBody :=
  { size := count, offset := offset,
    queryString :=
      { query := sanitizeQuery query,
        fields := [pstr "inurl^100", pstr "intitle^50", pstr "intext^5"],
        defaultOperator := pstr "AND", fuzziness := pstr "AUTO",
        analyzer := pstr "default" },
    highlight :=
      { order := pstr "score", preTags := [foreRED], postTags := [foreRESET],
        fragmentSize := 50, numberOfFragments := 3 } }

/-! ### Result renderer (`search`, lines 402-416) -/

/-- One hit of a query response: the stored source fields the renderer
reads (with the `.get` defaults already applied for `server`/`share`) and
the optional per-field highlight fragment lists. -/
structure Hit where
  inurl : PyStr
  server : PyStr
  share : PyStr
  docId : PyStr
  hlInurl : Option (List PyStr)
  hlIntext : Option (List PyStr)
deriving DecidableEq, Repr

/-- What the renderer prints for one hit: the URI shown, the bracketed
location suffix, and the joined content snippet line when present. -/
structure RenderedHit where
  uri : PyStr
  location : PyStr
  snippet : Option PyStr
deriving DecidableEq, Repr

/-- Python `sep.join(parts)`. -/
def joinSep (sep : PyStr) : List PyStr → PyStr
  | [] => []
  | [x] => x
  | x :: y :: t => x ++ sep ++ joinSep sep (y :: t)

/-- The per-hit rendering of `search` (lines 402-416):
`highlight.get('inurl', [src['inurl']])[0]` (the `[0]` indexing raises on an
empty fragment list, modelled as `none`), the location suffix rendered only
when `server` is truthy (non-empty), and the content fragments joined with
`" ... "` only when an `intext` highlight is present. -/
def renderHit (h : Hit) : Option RenderedHit :=
  match h.hlInurl.getD [h.inurl] with
  | [] => none
  | u :: _ =>
    some { uri := u,
           location := if h.server.isEmpty then []
                       else pstr " [" ++ h.server ++ pstr "/" ++ h.share ++ pstr "]",
           snippet := h.hlIntext.map (fun frags => joinSep (pstr " ... ") frags) }

/-! ### Concrete fixtures used by the theorems -/

/-- A target collection name. -/
def idxName : PyStr := pstr "crawl"

/-- A site name (the stem of the CSV source file). -/
def siteName : PyStr := pstr "data"

/-- A well-formed legacy-schema row: timestamp "0", path "p", content "c". -/
def goodRow : List PyStr := [pstr "0", pstr "p", pstr "", pstr "", pstr "c"]

/-- A legacy-schema row whose timestamp does not parse as an integer. -/
def badTsRow : List PyStr := [pstr "x", pstr "p", pstr "", pstr "", pstr "c"]

/-- The new-schema scenario row of the specification. -/
def scenarioRow : List PyStr :=
  [pstr "1700000000", pstr "/srv/a.txt", pstr "a.txt", pstr "srv1",
   pstr "share1", pstr "txt", pstr "file", pstr "hello world"]

/-- The document `import_csv` builds from `scenarioRow` under UTC offset
`tz`. -/
def scenarioDoc (tz : Int) : ImportDoc :=
  { timestamp := formatTimestamp tz 1700000000, inurl := pstr "/srv/a.txt",
    relpath := pstr "a.txt", server := pstr "srv1", share := pstr "share1",
    site := siteName, ext := pstr "txt", intitle := [],
    intext := pstr "hello world", filetype := pstr "file" }

/-- The pair of bulk body lines `import_csv` appends for `goodRow` at UTC
offset 0. -/
def goodPair : List BulkItem :=
  [BulkItem.indexAction idxName (md5Hex (pstr "p")),
   BulkItem.doc
     { timestamp := formatTimestamp 0 0, inurl := pstr "p",
       relpath := pstr "p", server := [], share := [], site := siteName,
       ext := [], intitle := [], intext := pstr "c", filetype := [] }]

/-- The delete action `delete_csv` appends for `goodRow`. -/
def delItem : BulkItem := BulkItem.deleteAction idxName (md5Hex (pstr "p"))

/-- A store that accepts every bulk request with no per-item errors. -/
def okStore : Store := fun _ => .ok ⟨false, []⟩

/-- A store that accepts every bulk request but rejects its items. -/
def rejectStore : Store := fun _ => .ok ⟨true, [true]⟩

/-- A store whose first bulk call fails at the transport level and accepts
afterwards. -/
def failFirstStore : Store :=
  fun n => if n = 0 then .error () else .ok ⟨false, []⟩

/-- A store where every bulk call fails at the transport level. -/
def errStore : Store := fun _ => .error ()

/-- A legacy-schema row whose `full_path` carries the surrogate code point
U+DC80, i.e. the `surrogateescape` image of the non-text byte 0x80. -/
def surrogateRow : List PyStr :=
  [pstr "0", [0xDC80], pstr "e", pstr "f", pstr "c"]

/-- A row is well-formed for import mode: it has at least 5 fields, its
`full_path` encodes, and its timestamp parses as an integer. -/
def importWF (row : List PyStr) : Bool :=
  match normalizeRow row with
  | none => false
  | some r => (pyEncode r.fullpath).isOk && (pyInt r.timestamp).isSome

/-- The batch contents after `m` consecutive `goodRow` import steps with
no flush: `m` copies of the header/document pair. -/
def joinRep (m : Nat) : List BulkItem := (List.replicate m goodPair).flatten

end Crawl

namespace Crawl

set_option maxRecDepth 100000

/-- Sanity: MD5 of "abc" matches the RFC 1321 test vector. -/
theorem md5Hex_abc : md5Hex (pstr "abc") = pstr "900150983cd24fb0d6963f7d28e17f72" := by
  decide

/-- Sanity: epoch 1700000000 formats as 2023-11-14 22:13:20 in UTC. -/
theorem formatTimestamp_check :
    formatTimestamp 0 1700000000 = pstr "2023-11-14 22:13:20" := by
  decide

/-- C1: a row with at least 8 fields is normalized as
[timestamp, full_path, relative_path, server, share, extension, file_type,
content] with any trailing fields ignored (so the legacy defaults are
never applied to it), and a row with 5 to 7 fields is normalized under the
legacy schema [timestamp, full_path, extension, file_type, content] with
relative_path = full_path, server = "", share = "". -/
theorem c1_normalizer_schema :
    (∀ t f r sv sh e ft c : PyStr, ∀ rest : List PyStr,
      normalizeRow (t :: f :: r :: sv :: sh :: e :: ft :: c :: rest) =
        some ⟨t, f, r, sv, sh, e, ft, c⟩) ∧
    (∀ t f e ft c : PyStr, ∀ rest : List PyStr, rest.length < 3 →
      normalizeRow (t :: f :: e :: ft :: c :: rest) =
        some ⟨t, f, f, [], [], e, ft, c⟩) := by
  constructor
  · intro t f r sv sh e ft c rest
    unfold normalizeRow
    rw [if_pos (by simp)]
    rfl
  · intro t f e ft c rest h
    unfold normalizeRow
    rw [if_neg (by simp; omega), if_pos (by simp)]
    rfl

/-- C1 witness: the two branches at a 9-field and a 6-field concrete row. -/
theorem c1_normalizer_schema_witness :
    normalizeRow [pstr "1", pstr "/a", pstr "a", pstr "s1", pstr "sh",
        pstr "txt", pstr "file", pstr "hi", pstr "extra"] =
      some ⟨pstr "1", pstr "/a", pstr "a", pstr "s1", pstr "sh", pstr "txt",
        pstr "file", pstr "hi"⟩ ∧
    normalizeRow [pstr "1", pstr "/a", pstr "txt", pstr "file", pstr "hi",
        pstr "extra"] =
      some ⟨pstr "1", pstr "/a", pstr "/a", [], [], pstr "txt", pstr "file",
        pstr "hi"⟩ :=
  ⟨c1_normalizer_schema.1 (pstr "1") (pstr "/a") (pstr "a") (pstr "s1")
      (pstr "sh") (pstr "txt") (pstr "file") (pstr "hi") [pstr "extra"],
   c1_normalizer_schema.2 (pstr "1") (pstr "/a") (pstr "txt") (pstr "file")
      (pstr "hi") [pstr "extra"] (by decide)⟩

/-- C2 (code bug): a request-level transport failure of a mid-run bulk
flush is NOT fatal: with batch size 1 and a store whose first bulk call
fails, the import run completes with `errors = 1`, and the failed batch's
operations are even resubmitted inside the next bulk call
(`goodPair ++ goodPair`). Only a transport failure at the final flush
propagates (second conjunct). -/
theorem c2_transport_failure_swallowed :
    runImport 1 0 idxName siteName failFirstStore [goodRow, goodRow] =
      .ok ⟨2, 1, [goodPair, goodPair ++ goodPair]⟩ ∧
    runImport 1 0 idxName siteName errStore [goodRow] = .error () := by
  constructor
  · rfl
  · rfl

/-- C3 (code bug): a row whose timestamp does not parse is counted as one
failure and skipped, but its bulk action header has already been appended:
the final bulk submission contains the dangling header for the skipped
row. -/
theorem c3_dangling_action_header :
    runImport defaultBatchSize 0 idxName siteName okStore [badTsRow] =
      .ok ⟨0, 1, [[BulkItem.indexAction idxName (md5Hex (pstr "p"))]]⟩ := by
  rfl

/-- Characterization of successful strict UTF-8 encoding of a scalar code
point. -/
theorem encodeCp_ok_of_scalar (c : Nat)
    (h : c < 0xD800 ∨ (0xDFFF < c ∧ c < 0x110000)) :
    ∃ b, encodeCp c = .ok b := by
  unfold encodeCp
  split_ifs with h1 h2 h3 h4 h5
  · exact ⟨_, rfl⟩
  · exact ⟨_, rfl⟩
  · omega
  · exact ⟨_, rfl⟩
  · exact ⟨_, rfl⟩
  · omega

/-- Strict UTF-8 encoding succeeds on any string of scalar code points. -/
theorem pyEncode_ok_of_scalar (p : PyStr)
    (h : ∀ c ∈ p, c < 0xD800 ∨ (0xDFFF < c ∧ c < 0x110000)) :
    ∃ b, pyEncode p = .ok b := by
  induction p with
  | nil => exact ⟨[], rfl⟩
  | cons c t ih =>
    obtain ⟨bc, hbc⟩ := encodeCp_ok_of_scalar c (h c (List.mem_cons_self c t))
    obtain ⟨bt, hbt⟩ := ih (fun x hx => h x (List.mem_cons_of_mem c hx))
    refine ⟨bc ++ bt, ?_⟩
    simp only [pyEncode, hbc, hbt]
    rfl

/-- C5 counterexample: the normalizer accepts a row whose `full_path`
carries the surrogate U+DC80 (the opaque image of non-text byte 0x80), yet
the identity function raises (`fullpath.encode()` is strict UTF-8), in
both import and delete mode; the import run counts the row as a failure
and produces no bulk operation for it. -/
theorem c5_identity_counterexample :
    (normalizeRow surrogateRow).isSome = true ∧
    importDocId [0xDC80] = .error () ∧
    deleteDocId [0xDC80] = .error () ∧
    runImport defaultBatchSize 0 idxName siteName okStore [surrogateRow] =
      .ok ⟨0, 1, []⟩ := by
  exact ⟨rfl, rfl, rfl, rfl⟩

/-- C5 amended: the identity function is the same pure function in import
and delete mode, and succeeds (deterministically) on every `full_path`
made of Unicode scalar values; only paths carrying preserved non-text
bytes (surrogate code points) make it raise. -/
theorem c5_identity_amended :
    (∀ p : PyStr, importDocId p = deleteDocId p) ∧
    (∀ p : PyStr, (∀ c ∈ p, c < 0xD800 ∨ (0xDFFF < c ∧ c < 0x110000)) →
      ∃ id0, importDocId p = .ok id0 ∧ deleteDocId p = .ok id0) := by
  constructor
  · intro p; rfl
  · intro p h
    obtain ⟨b, hb⟩ := pyEncode_ok_of_scalar p h
    exact ⟨md5Hex b, by simp [importDocId, hb], by simp [deleteDocId, hb]⟩

/-- C5 amended witness: the identity of "/srv/a.txt" succeeds and agrees
between import and delete mode. -/
theorem c5_identity_amended_witness :
    ∃ id0, importDocId (pstr "/srv/a.txt") = .ok id0 ∧
      deleteDocId (pstr "/srv/a.txt") = .ok id0 :=
  c5_identity_amended.2 (pstr "/srv/a.txt") (by decide)

/-- The sanitization removes exactly the characters `<`, `>`, `;`,
preserving everything else in order. -/
theorem sanitizeQuery_filter (q : PyStr) :
    sanitizeQuery q = q.filter (fun c => !(c == 60 || c == 62 || c == 59)) := by
  unfold sanitizeQuery
  rw [List.filter_filter, List.filter_filter]
  refine List.filter_congr (fun a _ => ?_)
  by_cases h1 : a = 60
  · simp [h1, bne]
  · by_cases h2 : a = 62
    · simp [h2, bne]
    · by_cases h3 : a = 59
      · simp [h3, bne]
      · simp [beq_eq_false_iff_ne.mpr h1, beq_eq_false_iff_ne.mpr h2,
              beq_eq_false_iff_ne.mpr h3, bne]

/-- C6: the query builder strips exactly `<`, `>`, `;` from the raw query
and submits it with field weights inurl×100, intitle×50, intext×5, AND as
the default operator, and automatic fuzziness. -/
theorem c6_query_builder :
    ∀ (q : PyStr) (count off : Int),
      (searchBody q count off).queryString.query = sanitizeQuery q ∧
      sanitizeQuery q =
        q.filter (fun c => !(c == 60 || c == 62 || c == 59)) ∧
      (searchBody q count off).queryString.fields =
        [pstr "inurl^100", pstr "intitle^50", pstr "intext^5"] ∧
      (searchBody q count off).queryString.defaultOperator = pstr "AND" ∧
      (searchBody q count off).queryString.fuzziness = pstr "AUTO" :=
  fun q _ _ => ⟨rfl, sanitizeQuery_filter q, rfl, rfl, rfl⟩

/-- Rendering a hit whose response carries no URI highlight falls back to
the raw stored URI. -/
theorem renderHit_no_hl (iu sv sh di : PyStr) (hit : Option (List PyStr)) :
    renderHit ⟨iu, sv, sh, di, none, hit⟩ =
      some ⟨iu,
        if sv.isEmpty then []
        else pstr " [" ++ sv ++ pstr "/" ++ sh ++ pstr "]",
        hit.map (fun frags => joinSep (pstr " ... ") frags)⟩ := rfl

/-- Rendering a hit with a non-empty URI highlight list shows its first
fragment. -/
theorem renderHit_hl (iu sv sh di u : PyStr) (us : List PyStr)
    (hit : Option (List PyStr)) :
    renderHit ⟨iu, sv, sh, di, some (u :: us), hit⟩ =
      some ⟨u,
        if sv.isEmpty then []
        else pstr " [" ++ sv ++ pstr "/" ++ sh ++ pstr "]",
        hit.map (fun frags => joinSep (pstr " ... ") frags)⟩ := rfl

/-- C7: the renderer shows the highlighted URI fragment when present and
the raw stored URI otherwise, joins content fragments with " ... ", emits
the bracketed location suffix exactly when `server` is non-empty, and does
not fail on a hit with no highlights (the snippet is omitted). -/
theorem c7_result_renderer (h : Hit) :
    (h.hlInurl = none →
      ∃ rd, renderHit h = some rd ∧ rd.uri = h.inurl) ∧
    (∀ f fs, h.hlInurl = some (f :: fs) →
      ∃ rd, renderHit h = some rd ∧ rd.uri = f) ∧
    (∀ rd, renderHit h = some rd →
      rd.snippet = h.hlIntext.map (fun frags => joinSep (pstr " ... ") frags)) ∧
    (∀ rd, renderHit h = some rd →
      (h.server = [] → rd.location = []) ∧
      (h.server ≠ [] →
        rd.location = pstr " [" ++ h.server ++ pstr "/" ++ h.share ++ pstr "]")) ∧
    (h.hlInurl = none → h.hlIntext = none →
      ∃ rd, renderHit h = some rd ∧ rd.snippet = none) := by
  obtain ⟨iu, sv, sh, di, hli, hit⟩ := h
  refine ⟨?_, ?_, ?_, ?_, ?_⟩
  · rintro rfl
    exact ⟨_, renderHit_no_hl iu sv sh di hit, rfl⟩
  · rintro f fs rfl
    exact ⟨_, renderHit_hl iu sv sh di f fs hit, rfl⟩
  · intro rd hrd
    rcases hli with _ | l
    · rw [renderHit_no_hl] at hrd
      cases hrd
      rfl
    · rcases l with _ | ⟨u, us⟩
      · exact absurd hrd (by simp [renderHit])
      · rw [renderHit_hl] at hrd
        cases hrd
        rfl
  · intro rd hrd
    have hloc : rd.location =
        if sv.isEmpty then []
        else pstr " [" ++ sv ++ pstr "/" ++ sh ++ pstr "]" := by
      rcases hli with _ | l
      · rw [renderHit_no_hl] at hrd
        cases hrd
        rfl
      · rcases l with _ | ⟨u, us⟩
        · exact absurd hrd (by simp [renderHit])
        · rw [renderHit_hl] at hrd
          cases hrd
          rfl
    constructor
    · rintro rfl
      simp [hloc]
    · intro hsv
      rw [hloc, if_neg]
      rcases sv with _ | ⟨c, cs⟩
      · exact absurd rfl hsv
      · simp [List.isEmpty]
  · rintro rfl rfl
    exact ⟨_, renderHit_no_hl iu sv sh di none, rfl⟩

/-- C7 witness: a hit with no highlights renders with the raw URI and no
snippet; a hit with highlights renders the first URI fragment. -/
theorem c7_result_renderer_witness :
    (∃ rd, renderHit ⟨pstr "/a", pstr "s", pstr "sh", pstr "id", none, none⟩ =
        some rd ∧ rd.uri = pstr "/a") ∧
    (∃ rd, renderHit ⟨pstr "/a", [], [], pstr "id", some [pstr "hl"],
        some [pstr "x", pstr "y"]⟩ = some rd ∧ rd.uri = pstr "hl") :=
  ⟨(c7_result_renderer ⟨pstr "/a", pstr "s", pstr "sh", pstr "id", none, none⟩).1
      rfl,
   (c7_result_renderer ⟨pstr "/a", [], [], pstr "id", some [pstr "hl"],
        some [pstr "x", pstr "y"]⟩).2.1 (pstr "hl") [] rfl⟩

/-- C8 counterexample: in delete mode, a 2-field row is skipped by a bare
`continue` without incrementing the error counter: the run ends with
`errors = 0`, not the one failure the claim requires. -/
theorem c8_short_row_counterexample :
    runDelete defaultBatchSize idxName okStore [[pstr "a", pstr "b"]] =
      .ok ⟨0, 0, []⟩ ∧
    (runDelete defaultBatchSize idxName okStore [[pstr "a", pstr "b"]]).toOption.map
        RunResult.errors ≠ some 1 := by
  exact ⟨rfl, by decide⟩

/-- A row with fewer than 5 fields normalizes to `none`. -/
theorem normalizeRow_short (row : List PyStr) (h : row.length < 5) :
    normalizeRow row = none := by
  unfold normalizeRow
  rw [if_neg (by omega), if_neg (by omega)]

/-- C8 amended: a row with fewer than 5 fields is counted as one failure
(submitted count untouched) in import mode, but in delete mode it is
skipped silently, affecting neither counter; in both modes the loop
proceeds to the next row. -/
theorem c8_short_row_amended (row : List PyStr) (h : row.length < 5) :
    (∀ (bs : Nat) (tz : Int) (idxN site : PyStr) (store : Store)
        (st : ImportState),
      importStep bs tz idxN site store st row =
        { st with errors := st.errors + 1 }) ∧
    (∀ (bs : Nat) (idxN : PyStr) (store : Store) (st : ImportState),
      deleteStep bs idxN store st row = st) := by
  constructor
  · intro bs tz idxN site store st
    simp [importStep, normalizeRow_short row h]
  · intro bs idxN store st
    simp [deleteStep, h]

/-- C8 amended witness: the two behaviors at the concrete 2-field row. -/
theorem c8_short_row_amended_witness :
    importStep defaultBatchSize 0 idxName siteName okStore initImportState
        [pstr "a", pstr "b"] =
      { initImportState with errors := 1 } ∧
    deleteStep defaultBatchSize idxName okStore initImportState
        [pstr "a", pstr "b"] = initImportState :=
  ⟨(c8_short_row_amended [pstr "a", pstr "b"] (by decide)).1 defaultBatchSize 0
      idxName siteName okStore initImportState,
   (c8_short_row_amended [pstr "a", pstr "b"] (by decide)).2 defaultBatchSize
      idxName okStore initImportState⟩

/-- One import step on the scenario row from the empty state appends the
action header and the document and flushes nothing. -/
theorem importStep_scenario (tz : Int) :
    importStep defaultBatchSize tz idxName siteName okStore initImportState
        scenarioRow =
      { batch := [BulkItem.indexAction idxName (md5Hex (pstr "/srv/a.txt")),
                  BulkItem.doc (scenarioDoc tz)],
        total := 0, errors := 0, calls := 0, bulkCalls := [] } := rfl

/-- C9: for the scenario row, under any local-time offset `tz` the stored
timestamp is the epoch input reformatted through `formatTimestamp tz`, and
at the UTC reference (tz = 0) the imported document is exactly
(timestamp "2023-11-14 22:13:20", inurl "/srv/a.txt", empty title, intext
"hello world", …) indexed under the MD5 hex of "/srv/a.txt" (whose
concrete value is pinned in the last conjunct). -/
theorem c9_scenario_document :
    (∀ tz : Int,
      runImport defaultBatchSize tz idxName siteName okStore [scenarioRow] =
        .ok ⟨1, 0, [[BulkItem.indexAction idxName (md5Hex (pstr "/srv/a.txt")),
                     BulkItem.doc (scenarioDoc tz)]]⟩) ∧
    scenarioDoc 0 =
      { timestamp := pstr "2023-11-14 22:13:20", inurl := pstr "/srv/a.txt",
        relpath := pstr "a.txt", server := pstr "srv1",
        share := pstr "share1", site := siteName, ext := pstr "txt",
        intitle := [], intext := pstr "hello world",
        filetype := pstr "file" } ∧
    md5Hex (pstr "/srv/a.txt") = pstr "3f772b881851fe04f4c273001e9fa321" := by
  refine ⟨fun tz => ?_, by decide, by decide⟩
  simp only [runImport, List.foldl_cons, List.foldl_nil,
    importStep_scenario tz]
  simp [importFinal, okStore, countItemErrors]

/-! ### Loop invariants for the tally claims -/

/-- One well-formed import step under a transport-healthy store keeps the
batch length even and advances submitted-plus-pending by exactly one
document. -/
theorem importStep_wf_parity (bs : Nat) (tz : Int) (idxN site : PyStr)
    (store : Store) (hstore : ∀ n, (store n).isOk = true)
    (st : ImportState) (row : List PyStr) (hwf : importWF row = true)
    (hst : st.batch.length % 2 = 0) :
    (importStep bs tz idxN site store st row).batch.length % 2 = 0 ∧
    (importStep bs tz idxN site store st row).total * 2 +
        (importStep bs tz idxN site store st row).batch.length =
      st.total * 2 + st.batch.length + 2 := by
  unfold importWF at hwf
  cases hn : normalizeRow row with
  | none => rw [hn] at hwf; cases hwf
  | some rec =>
    rw [hn] at hwf
    obtain ⟨henc, hts⟩ := Bool.and_eq_true_iff.mp hwf
    cases he : pyEncode rec.fullpath with
    | error e => rw [he] at henc; cases henc
    | ok bytes =>
      cases ht : pyInt rec.timestamp with
      | none => rw [ht] at hts; cases hts
      | some ts =>
        simp only [importStep, hn, he, ht]
        split
        · split
          · rename_i e hc
            have h2 := hstore st.calls
            rw [hc] at h2
            cases h2
          · rename_i resp hc
            simp
            omega
        · simp
          omega

/-- Over any run of well-formed rows with a transport-healthy store,
the ingestion loop keeps the batch length even and submitted-plus-pending
equals the number of rows consumed. -/
theorem import_loop_wf (bs : Nat) (tz : Int) (idxN site : PyStr)
    (store : Store) (hstore : ∀ n, (store n).isOk = true) :
    ∀ (rows : List (List PyStr)) (st : ImportState),
      (∀ r ∈ rows, importWF r = true) → st.batch.length % 2 = 0 →
      (rows.foldl (importStep bs tz idxN site store) st).batch.length % 2 = 0 ∧
      (rows.foldl (importStep bs tz idxN site store) st).total * 2 +
          (rows.foldl (importStep bs tz idxN site store) st).batch.length =
        st.total * 2 + st.batch.length + 2 * rows.length := by
  intro rows
  induction rows with
  | nil =>
    intro st _ hst
    exact ⟨hst, by simp⟩
  | cons r t ih =>
    intro st h hst
    simp only [List.foldl_cons]
    obtain ⟨h1, h2⟩ := importStep_wf_parity bs tz idxN site store hstore st r
      (h r (List.mem_cons_self r t)) hst
    obtain ⟨h3, h4⟩ := ih (importStep bs tz idxN site store st r)
      (fun x hx => h x (List.mem_cons_of_mem r hx)) h1
    refine ⟨h3, ?_⟩
    simp only [List.length_cons]
    omega

/-- The final import flush succeeds under a transport-healthy store and
adds the pending documents to the submitted count. -/
theorem importFinal_ok (store : Store) (st : ImportState)
    (hstore : ∀ n, (store n).isOk = true) :
    ∃ res, importFinal store st = .ok res ∧
      res.total = st.total + st.batch.length / 2 := by
  rcases st with ⟨batch, total, errors, calls, bulkCalls⟩
  rcases batch with _ | ⟨x, xs⟩
  · exact ⟨_, rfl, by simp⟩
  · cases hc : store calls with
    | error e =>
      have h2 := hstore calls
      rw [hc] at h2
      cases h2
    | ok resp =>
      refine ⟨⟨total + (x :: xs).length / 2, errors + countItemErrors resp,
        bulkCalls ++ [x :: xs]⟩, ?_, rfl⟩
      simp [importFinal, hc]

/-- C10: over any sequence of well-formed rows and any store that never
fails at the transport level (its responses may reject any number of items
per batch), the import run completes and its submitted count equals the
number of rows — per-item rejections never withhold the submitted count. -/
theorem c10_submitted_tally (bs : Nat) (tz : Int) (idxN site : PyStr)
    (store : Store) (rows : List (List PyStr))
    (hstore : ∀ n, (store n).isOk = true)
    (hwf : ∀ r ∈ rows, importWF r = true) :
    ∃ res, runImport bs tz idxN site store rows = .ok res ∧
      res.total = rows.length := by
  obtain ⟨hpar, htot⟩ :=
    import_loop_wf bs tz idxN site store hstore rows initImportState hwf rfl
  obtain ⟨res, hres, hrt⟩ := importFinal_ok store
    (rows.foldl (importStep bs tz idxN site store) initImportState) hstore
  refine ⟨res, hres, ?_⟩
  rw [show initImportState.total = 0 from rfl,
      show initImportState.batch.length = 0 from rfl] at htot
  omega

/-- C10 witness: two well-formed rows, batch size 1, against a store that
rejects every item of every batch — the run completes with submitted = 2. -/
theorem c10_submitted_tally_witness :
    ∃ res, runImport 1 0 idxName siteName rejectStore [goodRow, goodRow] =
        .ok res ∧ res.total = 2 :=
  c10_submitted_tally 1 0 idxName siteName rejectStore [goodRow, goodRow]
    (fun _ => rfl) (by decide)

/-! ### Closed form of the default-bound batching pattern -/

/-- Length of `m` header/document pairs. -/
theorem joinRep_length (m : Nat) : (joinRep m).length = 2 * m := by
  induction m with
  | zero => rfl
  | succ n ih =>
    simp only [joinRep, List.replicate_succ, List.flatten_cons,
      List.length_append, show goodPair.length = 2 from rfl] at *
    omega

/-- Appending one more pair. -/
theorem joinRep_succ' (m : Nat) : joinRep (m + 1) = joinRep m ++ goodPair := by
  simp [joinRep, List.replicate_succ', List.flatten_append]

/-- One `goodRow` import step at the default bound, in closed form. -/
theorem importStep_good (st : ImportState) :
    importStep defaultBatchSize 0 idxName siteName okStore st goodRow =
      if 1000 ≤ st.batch.length + 2 then
        ⟨[], st.total + (st.batch.length + 2) / 2, st.errors, st.calls + 1,
         st.bulkCalls ++ [st.batch ++ goodPair]⟩
      else ⟨st.batch ++ goodPair, st.total, st.errors, st.calls,
            st.bulkCalls⟩ := by
  simp only [importStep,
    show normalizeRow goodRow =
      some ⟨pstr "0", pstr "p", pstr "p", [], [], [], [], pstr "c"⟩ from rfl,
    show pyEncode (pstr "p") = .ok [112] from rfl,
    show pyInt (pstr "0") = some 0 from rfl]
  simp only [show md5Hex [112] = md5Hex (pstr "p") from rfl]
  simp only [show defaultBatchSize * 2 = 1000 from rfl, List.append_assoc,
    show ([BulkItem.indexAction idxName (md5Hex (pstr "p"))] ++
        [BulkItem.doc ⟨formatTimestamp 0 0, pstr "p", pstr "p", [], [],
          siteName, [], [], pstr "c", []⟩] : List BulkItem) = goodPair from rfl]
  simp [show goodPair.length = 2 from rfl, okStore, countItemErrors]

/-- Closed form of the import loop over `n` copies of `goodRow` at the
default bound against an all-accepting store. -/
theorem import_loop_good (n : Nat) :
    (List.replicate n goodRow).foldl
        (importStep defaultBatchSize 0 idxName siteName okStore)
        initImportState =
      ⟨joinRep (n % 500), n - n % 500, 0, n / 500,
       List.replicate (n / 500) (joinRep 500)⟩ := by
  induction n with
  | zero => rfl
  | succ n ih =>
    rw [List.replicate_succ', List.foldl_append, ih, List.foldl_cons,
      List.foldl_nil, importStep_good]
    simp only [joinRep_length]
    have h500 : n % 500 < 500 := Nat.mod_lt _ (by norm_num)
    by_cases hm : n % 500 = 499
    · rw [if_pos (by omega)]
      rw [ImportState.mk.injEq]
      refine ⟨?_, by omega, rfl, by omega, ?_⟩
      · rw [show (n + 1) % 500 = 0 from by omega]
        rfl
      · rw [hm, ← joinRep_succ', ← List.replicate_succ',
          show (n + 1) / 500 = n / 500 + 1 from by omega]
    · rw [if_neg (by omega)]
      rw [ImportState.mk.injEq]
      refine ⟨?_, by omega, rfl, by omega, ?_⟩
      · rw [show (n + 1) % 500 = n % 500 + 1 from by omega, joinRep_succ']
      · rw [show (n + 1) / 500 = n / 500 from by omega]

/-- One `goodRow` delete step at the default bound, in closed form. -/
theorem deleteStep_good (st : ImportState) :
    deleteStep defaultBatchSize idxName okStore st goodRow =
      if 500 ≤ st.batch.length + 1 then
        ⟨[], st.total + (st.batch.length + 1), st.errors, st.calls + 1,
         st.bulkCalls ++ [st.batch ++ [delItem]]⟩
      else ⟨st.batch ++ [delItem], st.total, st.errors, st.calls,
            st.bulkCalls⟩ := by
  simp only [deleteStep,
    show (goodRow.length < 5) = False from by simp [goodRow],
    show goodRow.getD 1 [] = pstr "p" from rfl,
    show pyEncode (pstr "p") = .ok [112] from rfl]
  simp only [show md5Hex [112] = md5Hex (pstr "p") from rfl]
  simp only [show BulkItem.deleteAction idxName (md5Hex (pstr "p")) = delItem
    from rfl, show defaultBatchSize = 500 from rfl]
  simp [okStore, countItemErrors]

/-- Closed form of the delete loop over `n` copies of `goodRow` at the
default bound against an all-accepting store. -/
theorem delete_loop_good (n : Nat) :
    (List.replicate n goodRow).foldl
        (deleteStep defaultBatchSize idxName okStore) initImportState =
      ⟨List.replicate (n % 500) delItem, n - n % 500, 0, n / 500,
       List.replicate (n / 500) (List.replicate 500 delItem)⟩ := by
  induction n with
  | zero => rfl
  | succ n ih =>
    rw [List.replicate_succ', List.foldl_append, ih, List.foldl_cons,
      List.foldl_nil, deleteStep_good]
    simp only [List.length_replicate]
    have h500 : n % 500 < 500 := Nat.mod_lt _ (by norm_num)
    by_cases hm : n % 500 = 499
    · rw [if_pos (by omega)]
      rw [ImportState.mk.injEq]
      refine ⟨?_, by omega, rfl, by omega, ?_⟩
      · rw [show (n + 1) % 500 = 0 from by omega]
        rfl
      · rw [hm, ← List.replicate_succ' 499, ← List.replicate_succ',
          show (n + 1) / 500 = n / 500 + 1 from by omega]
    · rw [if_neg (by omega)]
      rw [ImportState.mk.injEq]
      refine ⟨?_, by omega, rfl, by omega, ?_⟩
      · rw [show (n + 1) % 500 = n % 500 + 1 from by omega,
          List.replicate_succ']
      · rw [show (n + 1) / 500 = n / 500 from by omega]

/-- C4: the default batch bound is 500 logical operations; importing 1001
well-formed rows issues exactly 3 bulk submissions of 500, 500 and 1
documents (an index operation occupies two wire lines, so the request
bodies hold 1000, 1000 and 2 lines) ending at submitted=1001, failed=0;
deleting 1001 rows likewise issues 3 submissions of 500, 500 and 1 delete
actions (one wire line each). -/
theorem c4_batch_bound :
    defaultBatchSize = 500 ∧
    (runImport defaultBatchSize 0 idxName siteName okStore
        (List.replicate 1001 goodRow)).toOption.map
      (fun r => (r.bulkCalls.map (fun b => b.length / 2),
                 r.bulkCalls.map List.length, r.total, r.errors)) =
      some ([500, 500, 1], [1000, 1000, 2], 1001, 0) ∧
    (runDelete defaultBatchSize idxName okStore
        (List.replicate 1001 goodRow)).toOption.map
      (fun r => (r.bulkCalls.map List.length, r.total, r.errors)) =
      some ([500, 500, 1], 1001, 0) := by
  refine ⟨rfl, ?_, ?_⟩
  · unfold runImport
    rw [import_loop_good 1001,
      show (1001 : Nat) % 500 = 1 from by norm_num,
      show (1001 : Nat) / 500 = 2 from by norm_num,
      show joinRep 1 = goodPair from by simp [joinRep]]
    simp only [importFinal, goodPair, okStore, countItemErrors]
    simp [joinRep_length, Except.toOption, List.replicate_succ]
  · unfold runDelete
    rw [delete_loop_good 1001,
      show (1001 : Nat) % 500 = 1 from by norm_num,
      show (1001 : Nat) / 500 = 2 from by norm_num]
    simp only [deleteFinal, okStore, countItemErrors]
    simp [Except.toOption, List.replicate_succ]

end Crawl
